import Mathlib

/-
Shallow embedding of MastodonBotMonitor/RemorsefulHeftyDevices/main.py.

A Python `str` is modelled as its sequence of characters (`List Char`).
The monitoring loop's body is modelled as a pure state-transition function
on the in-memory seen-address set; the durable JSON files are modelled by a
small JSON value type.  Each definition is translated from the source file;
line numbers in the comments refer to main.py.
-/

/-- Python str, as a sequence of characters. -/
abbrev PyStr := List Char

/-- Python str.endswith: the argument is a suffix of the receiver. -/
def endswith (s sfx : PyStr) : Bool :=
  sfx.isSuffixOf s

namespace Config

/-- main.py line 33: REQUIRED_SUFFIX = "pump". -/
def REQUIRED_SUFFIX : PyStr := "pump".toList

/-- main.py line 34: BANNED_SUFFIX = "moon". -/
def BANNED_SUFFIX : PyStr := "moon".toList

/-- main.py line 32: CHECK_INTERVAL = 15 seconds. -/
def CHECK_INTERVAL : Nat := 15

/-- One numeric range of the PARAMS filter object: the two-element
array [lo, hi] written in the source (lines 21-24). -/
structure NumRange where
  lo : ℚ
  hi : ℚ
deriving DecidableEq

/-- Models the float literal 1e+308 of main.py lines 23-24 as the exact
decimal 10^308.  (The source's IEEE double is the nearest representable
value; every claim treated here depends only on the bound being a finite,
astronomically large number, which both share.) -/
def FLOAT_1E308 : ℚ := 10 ^ 308

/-- The JSON-encoded filter sub-parameter of Config.PARAMS (lines 20-25). -/
structure FilterObject where
  liquidity : NumRange
  mkt_cap : NumRange
  holders : NumRange
  volume : NumRange
deriving DecidableEq

/-- main.py lines 20-25: the literal filter object. -/
def PARAMS_filter : FilterObject :=
  ⟨⟨50000, 1000000⟩, ⟨200000, 1000000⟩, ⟨400, FLOAT_1E308⟩, ⟨80000, FLOAT_1E308⟩⟩

end Config

/-- Membership of a value in one encoded numeric range. -/
def inNumRange (r : Config.NumRange) (x : ℚ) : Prop :=
  r.lo ≤ x ∧ x ≤ r.hi

instance (r : Config.NumRange) (x : ℚ) : Decidable (inNumRange r x) :=
  inferInstanceAs (Decidable (And _ _))

/-- The flat record built by parse_token_data (main.py lines 92-102).
The numeric payload fields are carried opaquely as integers: the loop never
computes with them, it only passes them through to the notifier.
created_ago carries the creation instant; the source renders it through a
timezone conversion and strftime, which no claim inspects. -/
structure TokenRecord where
  address : PyStr
  symbol : PyStr
  fdv : Int
  price : Int
  holders : Int
  liquidity : Int
  volume : Int
  created_ago : Int
  logo : PyStr
deriving DecidableEq

/-- The nested market_info dict of the raw API record; each field may be
absent (a dict access on a missing key raises KeyError). -/
structure MarketInfo where
  fdv : Option Int
  price : Option Int
  holders : Option Int
  volume : Option Int
deriving DecidableEq

/-- The nested pair_summary_info dict of the raw API record. -/
structure PairSummaryInfo where
  liquidity : Option Int
deriving DecidableEq

/-- The raw top token record of the API response body, with every accessed
field possibly absent. -/
structure RawToken where
  address : Option PyStr
  symbol : Option PyStr
  creation_timestamp : Option Int
  market_info : Option MarketInfo
  pair_summary_info : Option PairSummaryInfo
  logo : Option PyStr
deriving DecidableEq

/-- TokenMonitor.parse_token_data (main.py lines 85-105): all dict accesses,
including token["logo"] on line 101, sit inside one try/except KeyError, so
a missing key anywhere makes the whole parse return None. -/
def parse_token_data (token : RawToken) : Option TokenRecord :=
  match token.creation_timestamp, token.address, token.symbol,
        token.market_info, token.pair_summary_info, token.logo with
  | some ts, some addr, some sym, some mi, some psi, some lg =>
    match mi.fdv, mi.price, mi.holders, mi.volume, psi.liquidity with
    | some f, some p, some h, some v, some liq =>
      some ⟨addr, sym, f, p, h, liq, v, ts, lg⟩
    | _, _, _, _, _ => none
  | _, _, _, _, _, _ => none

/-- The observable outcome of the HTTP GET inside fetch_token_data: a
network-layer exception, any other exception, or a response carrying a
status code and the optional "data" list of the JSON body. -/
inductive FetchOutcome where
  | netError
  | unexpectedError
  | response (status : Nat) (data : Option (List RawToken))
deriving DecidableEq

/-- TokenMonitor.fetch_token_data (main.py lines 63-83): every exception is
caught and mapped to None; a non-200 status or an absent/empty data list
yields None; otherwise the head record is parsed. -/
def fetch_token_data : FetchOutcome → Option TokenRecord
  | .netError => none
  | .unexpectedError => none
  | .response status data =>
    if status ≠ 200 then none
    else
      match data with
      | none => none
      | some [] => none
      | some (token :: _) => parse_token_data token

/-- What one iteration of monitoring_loop (main.py lines 155-189) does to the
observable state.  notified records the argument of the send_alert call when
one happens; saved records whether save_persistence ran; slept records
whether control reached the asyncio.sleep(CHECK_INTERVAL) on line 189 — the
three continue statements (lines 164, 172, 180) jump straight to the next
iteration of the while loop and therefore bypass that sleep. -/
structure TickResult where
  seen : List PyStr
  notified : Option TokenRecord
  saved : Bool
  slept : Bool
deriving DecidableEq

/-- One iteration of TokenMonitor.monitoring_loop (main.py lines 155-189),
parametrised by the fetch outcome and by whether send_alert succeeds. -/
def monitoring_loop_tick (seen : List PyStr) (outcome : FetchOutcome)
    (sendOk : Bool) : TickResult :=
  match fetch_token_data outcome with
  | none => ⟨seen, none, false, true⟩
  | some td =>
    if td.address ∈ seen then
      ⟨seen, none, false, false⟩
    else if endswith td.address Config.REQUIRED_SUFFIX = false then
      ⟨td.address :: seen, none, true, false⟩
    else if endswith td.address Config.BANNED_SUFFIX = true then
      ⟨td.address :: seen, none, true, false⟩
    else if sendOk then
      ⟨td.address :: seen, some td, true, true⟩
    else
      ⟨seen, some td, false, true⟩

/-- The environment's behaviour during one tick: what the fetch observes and
whether send_alert would succeed. -/
structure TickInput where
  outcome : FetchOutcome
  sendOk : Bool
deriving DecidableEq

/-- A finite run of the monitoring loop: the trace of tick results, each tick
starting from the seen set the previous tick produced. -/
def monitoring_loop_run (seen : List PyStr) : List TickInput → List TickResult
  | [] => []
  | i :: rest =>
    let r := monitoring_loop_tick seen i.outcome i.sendOk
    r :: monitoring_loop_run r.seen rest

/-- JSON values, as json.load can produce them (object keys are strings). -/
inductive Json where
  | null
  | bool (b : Bool)
  | num (n : Int)
  | str (s : PyStr)
  | arr (elems : List Json)
  | obj (fields : List (PyStr × Json))

/-- What opening and json.load-ing a file can observe: the file is missing
(FileNotFoundError), its text is not JSON (JSONDecodeError), or it parses to
a JSON value. -/
inductive FileContent where
  | missing
  | malformed
  | parsed (j : Json)

/-- The Python exceptions relevant to load_persistence that its
except clause does not catch. -/
inductive PyError where
  | typeError
deriving DecidableEq

/-- The hashable JSON scalars: the only values Python's set() accepts as
elements (a list or dict element raises TypeError: unhashable type). -/
inductive PyScalar where
  | null
  | bool (b : Bool)
  | num (n : Int)
  | str (s : PyStr)
deriving DecidableEq

/-- The hashable view of a JSON value (none for a list or dict). -/
def Json.asHashable : Json → Option PyScalar
  | .null => some .null
  | .bool b => some (.bool b)
  | .num n => some (.num n)
  | .str s => some (.str s)
  | _ => none

/-- Re-embedding of a hashable scalar into JSON (what json.dump writes for
such a set element). -/
def PyScalar.toJson : PyScalar → Json
  | .null => .null
  | .bool b => .bool b
  | .num n => .num n
  | .str s => .str s

/-- The elements of a JSON array as set elements: each must be hashable, or
iterating it into a set raises TypeError. -/
def hashableElems : List Json → Option (List PyScalar)
  | [] => some []
  | j :: rest =>
    match j.asHashable, hashableElems rest with
    | some v, some vs => some (v :: vs)
    | _, _ => none

/-- Python set(x) on a JSON value: iterating an array collects its elements
(raising TypeError if one is unhashable), a string yields its one-character
substrings, a dict yields its keys; a number, boolean or None is not
iterable and raises TypeError.  The set is modelled as a duplicate-free
list (iteration order is arbitrary in Python; every claim about it is
stated up to reordering). -/
def pySet : Json → Except PyError (List PyScalar)
  | .arr elems =>
    match hashableElems elems with
    | some vs => .ok vs.dedup
    | none => .error .typeError
  | .str s => .ok ((s.map (fun c => PyScalar.str [c])).dedup)
  | .obj fields => .ok (((fields.map Prod.fst).dedup).map PyScalar.str)
  | _ => .error .typeError

/-- TokenMonitor.load_persistence (main.py lines 49-56): returns
set(json.load(f)), catching only FileNotFoundError and JSONDecodeError — a
TypeError from set() on a non-iterable JSON value propagates. -/
def load_persistence : FileContent → Except PyError (List PyScalar)
  | .missing => .ok []
  | .malformed => .ok []
  | .parsed j => pySet j

/-- TokenMonitor.save_persistence (main.py lines 58-61): json.dump of
list(data) — the file afterwards holds the JSON array of the set's
elements. -/
def save_persistence (data : List PyScalar) : Json :=
  Json.arr (data.map PyScalar.toJson)

/-- The round trip of §8 of the spec: load a file, then save the loaded set
back; the result is the JSON value the file would hold afterwards (or the
error load raised). -/
def save_after_load (f : FileContent) : Except PyError Json :=
  (load_persistence f).map save_persistence

/-
Concrete sample data used by witnesses and counterexamples.
-/

/-- A fully-populated raw record whose address ends in "pump". -/
def sampleRawPump : RawToken :=
  ⟨some "abc123pump".toList, some "ABC".toList, some 1700000000,
   some ⟨some 500000, some 3, some 450, some 90000⟩, some ⟨some 60000⟩,
   some "http://logo.png".toList⟩

/-- The parsed form of sampleRawPump. -/
def sampleRecordPump : TokenRecord :=
  ⟨"abc123pump".toList, "ABC".toList, 500000, 3, 450, 60000, 90000,
   1700000000, "http://logo.png".toList⟩

/-- A fully-populated raw record whose address ends in "moon" (so not in
"pump"). -/
def sampleRawMoon : RawToken :=
  ⟨some "xyz789moon".toList, some "XYZ".toList, some 1700000000,
   some ⟨some 500000, some 3, some 450, some 90000⟩, some ⟨some 60000⟩,
   some "http://logo.png".toList⟩

/-- A raw record with every field present except the logo. -/
def sampleRawNoLogo : RawToken :=
  ⟨some "abc123pump".toList, some "ABC".toList, some 1700000000,
   some ⟨some 500000, some 3, some 450, some 90000⟩, some ⟨some 60000⟩,
   none⟩

/-
Helper lemmas about one tick.
-/

/-- No branch of a tick ever removes an address from the seen set. -/
theorem tick_seen_mono (seen : List PyStr) (o : FetchOutcome) (ok : Bool) :
    seen ⊆ (monitoring_loop_tick seen o ok).seen := by
  unfold monitoring_loop_tick
  cases fetch_token_data o with
  | none => exact fun x hx => hx
  | some td =>
    dsimp only
    split
    · exact fun x hx => hx
    · split
      · exact fun x hx => List.mem_cons_of_mem _ hx
      · split
        · exact fun x hx => List.mem_cons_of_mem _ hx
        · split
          · exact fun x hx => List.mem_cons_of_mem _ hx
          · exact fun x hx => hx

/-- A tick only hands a record to send_alert when that record's address was
not yet in the seen set. -/
theorem tick_notified_not_seen (seen : List PyStr) (o : FetchOutcome)
    (ok : Bool) (td : TokenRecord)
    (h : (monitoring_loop_tick seen o ok).notified = some td) :
    td.address ∉ seen := by
  unfold monitoring_loop_tick at h
  cases hf : fetch_token_data o with
  | none => rw [hf] at h; simp at h
  | some td0 =>
    rw [hf] at h
    dsimp only at h
    split at h
    · simp at h
    · split at h
      · simp at h
      · split at h
        · simp at h
        · split at h <;> simp_all

/-
Claim theorems.
-/

/-- C10: for every address string, ending with "moon" implies not ending
with "pump"; consequently at the program point where the banned-suffix check
of monitoring_loop runs (fetch succeeded, address unseen, required-suffix
check already passed) the condition is always false — the dedicated "moon"
skip branch is dead code. -/
theorem moon_branch_unreachable :
    (∀ a : PyStr, endswith a Config.BANNED_SUFFIX = true →
      endswith a Config.REQUIRED_SUFFIX = false) ∧
    (∀ (seen : List PyStr) (o : FetchOutcome) (td : TokenRecord),
      fetch_token_data o = some td → td.address ∉ seen →
      endswith td.address Config.REQUIRED_SUFFIX = true →
      endswith td.address Config.BANNED_SUFFIX = false) := by
  have key : ∀ a : PyStr, endswith a Config.BANNED_SUFFIX = true →
      endswith a Config.REQUIRED_SUFFIX = false := by
    intro a h
    by_contra hp
    rw [Bool.not_eq_false] at hp
    rw [endswith, List.isSuffixOf_iff_suffix] at h hp
    have hsub : Config.BANNED_SUFFIX <:+ Config.REQUIRED_SUFFIX :=
      List.suffix_of_suffix_length_le h hp (by decide)
    exact absurd (hsub.eq_of_length (by decide)) (by decide)
  refine ⟨key, fun seen o td _ _ hp => ?_⟩
  by_contra hm
  rw [Bool.not_eq_false] at hm
  rw [key td.address hm] at hp
  exact Bool.false_ne_true hp

/-- Witness for moon_branch_unreachable: both conjuncts instantiated at
concrete inputs, hypotheses discharged by evaluation. -/
theorem moon_branch_unreachable_witness :
    endswith ("xyz789moon".toList) Config.REQUIRED_SUFFIX = false ∧
    endswith sampleRecordPump.address Config.BANNED_SUFFIX = false :=
  ⟨moon_branch_unreachable.1 ("xyz789moon".toList) (by decide),
   moon_branch_unreachable.2 [] (.response 200 (some [sampleRawPump]))
     sampleRecordPump (by decide) (by decide) (by decide)⟩

/-- C1: once an address is in the seen set, every later state of a run still
contains it (it is never removed), and no tick of the run hands send_alert a
record carrying that address. -/
theorem seen_sticky_and_never_renotified (A : PyStr) (seen : List PyStr)
    (inputs : List TickInput) (hA : A ∈ seen) :
    (∀ r ∈ monitoring_loop_run seen inputs, A ∈ r.seen) ∧
    (∀ r ∈ monitoring_loop_run seen inputs, ∀ td : TokenRecord,
      r.notified = some td → td.address ≠ A) := by
  induction inputs generalizing seen with
  | nil =>
    refine ⟨?_, ?_⟩ <;> intro r hr <;> simp [monitoring_loop_run] at hr
  | cons i rest ih =>
    have hA1 : A ∈ (monitoring_loop_tick seen i.outcome i.sendOk).seen :=
      tick_seen_mono seen i.outcome i.sendOk hA
    obtain ⟨ih1, ih2⟩ := ih _ hA1
    constructor
    · intro r hr
      simp only [monitoring_loop_run] at hr
      rcases List.mem_cons.mp hr with h | h
      · exact h ▸ hA1
      · exact ih1 r h
    · intro r hr td hn
      simp only [monitoring_loop_run] at hr
      rcases List.mem_cons.mp hr with h | h
      · subst h
        intro hEq
        exact tick_notified_not_seen seen i.outcome i.sendOk td hn (hEq ▸ hA)
      · exact ih2 r h td hn

/-- Witness for seen_sticky_and_never_renotified: a concrete one-tick run
that re-fetches an already-seen address. -/
theorem seen_sticky_and_never_renotified_witness :
    (∀ r ∈ monitoring_loop_run ["abc123pump".toList]
        [⟨.response 200 (some [sampleRawPump]), true⟩],
      "abc123pump".toList ∈ r.seen) ∧
    (∀ r ∈ monitoring_loop_run ["abc123pump".toList]
        [⟨.response 200 (some [sampleRawPump]), true⟩],
      ∀ td : TokenRecord, r.notified = some td →
        td.address ≠ "abc123pump".toList) :=
  seen_sticky_and_never_renotified _ _ _ (by decide)

/-- C2: when a qualifying, never-seen token reaches the alert step and
send_alert reports failure, the tick leaves the seen set unchanged and runs
no save, so the same token is still eligible: the very same tick input with
a succeeding send_alert delivers the alert and only then marks the
address. -/
theorem failed_send_leaves_address_unseen (seen : List PyStr)
    (o : FetchOutcome) (td : TokenRecord)
    (hf : fetch_token_data o = some td)
    (hseen : td.address ∉ seen)
    (hp : endswith td.address Config.REQUIRED_SUFFIX = true)
    (hm : endswith td.address Config.BANNED_SUFFIX = false) :
    (monitoring_loop_tick seen o false).seen = seen ∧
    (monitoring_loop_tick seen o false).saved = false ∧
    (monitoring_loop_tick seen o false).notified = some td ∧
    (monitoring_loop_tick seen o true).notified = some td ∧
    (monitoring_loop_tick seen o true).seen = td.address :: seen := by
  unfold monitoring_loop_tick
  rw [hf]
  simp [hseen, hp, hm]

/-- Witness for failed_send_leaves_address_unseen at a concrete qualifying
token. -/
theorem failed_send_leaves_address_unseen_witness :
    (monitoring_loop_tick [] (.response 200 (some [sampleRawPump]))
      false).seen = [] ∧
    (monitoring_loop_tick [] (.response 200 (some [sampleRawPump]))
      false).saved = false ∧
    (monitoring_loop_tick [] (.response 200 (some [sampleRawPump]))
      false).notified = some sampleRecordPump ∧
    (monitoring_loop_tick [] (.response 200 (some [sampleRawPump]))
      true).notified = some sampleRecordPump ∧
    (monitoring_loop_tick [] (.response 200 (some [sampleRawPump]))
      true).seen = sampleRecordPump.address :: [] :=
  failed_send_leaves_address_unseen [] _ sampleRecordPump (by decide)
    (by decide) (by decide) (by decide)

/-- C3 fails on the code: the continue statements on lines 164, 172 and 180
of main.py jump to the next while-iteration, bypassing the
asyncio.sleep(CHECK_INTERVAL) on line 189.  Evaluated here: a tick that
fetches an already-seen address does not sleep, nor does one that fetches a
wrong-suffix address, while a failed fetch and an alerted token do reach the
sleep. -/
theorem skip_branches_do_not_sleep :
    (monitoring_loop_tick ["abc123pump".toList]
      (.response 200 (some [sampleRawPump])) true).slept = false ∧
    (monitoring_loop_tick [] (.response 200 (some [sampleRawMoon]))
      true).slept = false ∧
    (monitoring_loop_tick [] .netError true).slept = true ∧
    (monitoring_loop_tick [] (.response 200 (some [sampleRawPump]))
      true).slept = true := by
  decide

/-- C4: the per-tick checks apply in the source's order, each
short-circuiting the tick: a null fetch does nothing; an already-seen
address is skipped without re-adding or re-saving; a non-"pump" address is
added, saved and skipped without notifying; a "moon" address that passed the
"pump" check is added, saved and skipped without notifying; and send_alert
receives exactly the tokens that pass every check. -/
theorem tick_check_order (seen : List PyStr) (o : FetchOutcome) (ok : Bool) :
    (fetch_token_data o = none →
      monitoring_loop_tick seen o ok = ⟨seen, none, false, true⟩) ∧
    (∀ td : TokenRecord, fetch_token_data o = some td → td.address ∈ seen →
      (monitoring_loop_tick seen o ok).seen = seen ∧
      (monitoring_loop_tick seen o ok).saved = false ∧
      (monitoring_loop_tick seen o ok).notified = none) ∧
    (∀ td : TokenRecord, fetch_token_data o = some td → td.address ∉ seen →
      endswith td.address Config.REQUIRED_SUFFIX = false →
      (monitoring_loop_tick seen o ok).seen = td.address :: seen ∧
      (monitoring_loop_tick seen o ok).saved = true ∧
      (monitoring_loop_tick seen o ok).notified = none) ∧
    (∀ td : TokenRecord, fetch_token_data o = some td → td.address ∉ seen →
      endswith td.address Config.REQUIRED_SUFFIX = true →
      endswith td.address Config.BANNED_SUFFIX = true →
      (monitoring_loop_tick seen o ok).seen = td.address :: seen ∧
      (monitoring_loop_tick seen o ok).saved = true ∧
      (monitoring_loop_tick seen o ok).notified = none) ∧
    (∀ td : TokenRecord,
      (monitoring_loop_tick seen o ok).notified = some td →
      fetch_token_data o = some td ∧ td.address ∉ seen ∧
      endswith td.address Config.REQUIRED_SUFFIX = true ∧
      endswith td.address Config.BANNED_SUFFIX = false) := by
  refine ⟨?_, ?_, ?_, ?_, ?_⟩
  · intro h; unfold monitoring_loop_tick; rw [h]
  · intro td hf hmem; unfold monitoring_loop_tick; rw [hf]; simp [hmem]
  · intro td hf hmem hp
    unfold monitoring_loop_tick; rw [hf]; simp [hmem, hp]
  · intro td hf hmem hp hm
    unfold monitoring_loop_tick; rw [hf]; simp [hmem, hp, hm]
  · intro td hn
    unfold monitoring_loop_tick at hn
    cases hf : fetch_token_data o with
    | none => rw [hf] at hn; simp at hn
    | some td0 =>
      rw [hf] at hn
      dsimp only at hn
      repeat' split at hn
      all_goals simp_all

/-- Witness for tick_check_order: the wrong-suffix branch at a concrete
"moon" token, and the null-fetch branch. -/
theorem tick_check_order_witness :
    ((monitoring_loop_tick [] (.response 200 (some [sampleRawMoon]))
        true).seen = "xyz789moon".toList :: [] ∧
      (monitoring_loop_tick [] (.response 200 (some [sampleRawMoon]))
        true).saved = true ∧
      (monitoring_loop_tick [] (.response 200 (some [sampleRawMoon]))
        true).notified = none) ∧
    monitoring_loop_tick [] .netError true = ⟨[], none, false, true⟩ :=
  ⟨(tick_check_order [] (.response 200 (some [sampleRawMoon])) true).2.2.1
      ⟨"xyz789moon".toList, "XYZ".toList, 500000, 3, 450, 60000, 90000,
        1700000000, "http://logo.png".toList⟩
      (by decide) (by decide) (by decide),
   (tick_check_order [] .netError true).1 rfl⟩

/-- C7: every failure inside fetch_token_data (network error, unexpected
exception, non-success status) is mapped to none instead of propagating,
and a tick whose fetch is none mutates nothing, calls send_alert on nothing,
and proceeds to the sleep. -/
theorem fetch_failures_and_null_tick (seen : List PyStr) (o : FetchOutcome)
    (ok : Bool) :
    fetch_token_data .netError = none ∧
    fetch_token_data .unexpectedError = none ∧
    (∀ (status : Nat) (data : Option (List RawToken)), status ≠ 200 →
      fetch_token_data (.response status data) = none) ∧
    (fetch_token_data o = none →
      monitoring_loop_tick seen o ok = ⟨seen, none, false, true⟩) := by
  refine ⟨rfl, rfl, ?_, ?_⟩
  · intro st d h
    simp [fetch_token_data, h]
  · intro h
    unfold monitoring_loop_tick
    rw [h]

/-- Witness for fetch_failures_and_null_tick: a 500 status and a network
error at concrete inputs. -/
theorem fetch_failures_and_null_tick_witness :
    fetch_token_data (.response 500 (some [sampleRawPump])) = none ∧
    monitoring_loop_tick [] .netError true = ⟨[], none, false, true⟩ :=
  ⟨(fetch_failures_and_null_tick [] .netError true).2.2.1 500
      (some [sampleRawPump]) (by decide),
   (fetch_failures_and_null_tick [] .netError true).2.2.2 rfl⟩

/-- Re-embedding a hashable scalar into JSON and taking the hashable view
again is the identity. -/
theorem asHashable_toJson (v : PyScalar) :
    (PyScalar.toJson v).asHashable = some v := by
  cases v <;> rfl

/-- An array written from scalars is read back as exactly those scalars. -/
theorem hashableElems_map_toJson (elems : List PyScalar) :
    hashableElems (elems.map PyScalar.toJson) = some elems := by
  induction elems with
  | nil => rfl
  | cons v vs ih => simp [hashableElems, asHashable_toJson, ih]

/-- C5 fails on the code: content that is valid JSON but not an array — the
number 42 here — makes load_persistence raise a TypeError (set() of a
non-iterable) to its caller instead of returning the empty set, because the
except clause catches only FileNotFoundError and JSONDecodeError. -/
theorem load_persistence_raises_on_non_iterable_json :
    load_persistence (.parsed (.num 42)) = .error .typeError ∧
    load_persistence (.parsed (.num 42)) ≠ .ok [] := by
  refine ⟨rfl, ?_⟩
  simp [load_persistence, pySet]

/-- C5 amended: load_persistence returns the (deduplicated) elements of a
JSON array of scalars, and the empty set on a missing file or undecodable
content; but on content that is valid JSON it raises a TypeError exactly
when the value is one that set() cannot iterate — a number, a boolean, null,
or an array containing an unhashable element. -/
theorem load_persistence_behavior :
    (∀ elems : List PyScalar,
      load_persistence (.parsed (.arr (elems.map PyScalar.toJson))) =
        .ok elems.dedup ∧
      (∀ v, v ∈ elems.dedup ↔ v ∈ elems) ∧ elems.dedup.Nodup) ∧
    load_persistence .missing = .ok [] ∧
    load_persistence .malformed = .ok [] ∧
    (∀ j : Json, (∃ e, load_persistence (.parsed j) = .error e) ↔
      (j = .null ∨ (∃ b, j = .bool b) ∨ (∃ n, j = .num n) ∨
       (∃ elems, j = .arr elems ∧ hashableElems elems = none))) := by
  refine ⟨?_, rfl, rfl, ?_⟩
  · intro elems
    refine ⟨?_, fun v => List.mem_dedup, List.nodup_dedup elems⟩
    simp [load_persistence, pySet, hashableElems_map_toJson]
  · intro j
    cases j with
    | null => exact iff_of_true ⟨.typeError, rfl⟩ (Or.inl rfl)
    | bool b => exact iff_of_true ⟨.typeError, rfl⟩ (Or.inr (Or.inl ⟨b, rfl⟩))
    | num n =>
      exact iff_of_true ⟨.typeError, rfl⟩ (Or.inr (Or.inr (Or.inl ⟨n, rfl⟩)))
    | str s =>
      refine iff_of_false ?_ (by simp)
      rintro ⟨e, he⟩
      simp [load_persistence, pySet] at he
    | obj fields =>
      refine iff_of_false ?_ (by simp)
      rintro ⟨e, he⟩
      simp [load_persistence, pySet] at he
    | arr elems =>
      cases h : hashableElems elems with
      | none =>
        refine iff_of_true ⟨.typeError, ?_⟩
          (Or.inr (Or.inr (Or.inr ⟨elems, rfl, h⟩)))
        simp [load_persistence, pySet, h]
      | some vs =>
        refine iff_of_false ?_ ?_
        · rintro ⟨e, he⟩
          simp [load_persistence, pySet, h] at he
        · simp [h]

/-- C6 fails on the code: a top record with every required field present but
no logo is discarded by parse_token_data (token["logo"] on line 101 raises
KeyError, caught as a malformed record), while the identical record with a
logo parses — so the logo is not optional at the parse step. -/
theorem parse_discards_missing_logo :
    parse_token_data sampleRawNoLogo = none ∧
    sampleRawNoLogo.address.isSome = true ∧
    sampleRawNoLogo.symbol.isSome = true ∧
    sampleRawNoLogo.creation_timestamp.isSome = true ∧
    sampleRawNoLogo.market_info.isSome = true ∧
    sampleRawNoLogo.pair_summary_info.isSome = true ∧
    sampleRawNoLogo.logo = none ∧
    parse_token_data sampleRawPump = some sampleRecordPump :=
  ⟨rfl, rfl, rfl, rfl, rfl, rfl, rfl, rfl⟩

/-- C6 amended: parse_token_data succeeds exactly when every accessed field
of the top record is present — the required fields and also the logo, which
the parser demands even though the data model calls it optional and the
notifier tolerates its absence. -/
theorem parse_token_data_requires_every_field (t : RawToken) :
    (parse_token_data t).isSome = true ↔
      (t.creation_timestamp.isSome = true ∧ t.address.isSome = true ∧
       t.symbol.isSome = true ∧
       (∃ mi, t.market_info = some mi ∧ mi.fdv.isSome = true ∧
         mi.price.isSome = true ∧ mi.holders.isSome = true ∧
         mi.volume.isSome = true) ∧
       (∃ ps, t.pair_summary_info = some ps ∧ ps.liquidity.isSome = true) ∧
       t.logo.isSome = true) := by
  obtain ⟨a, sym, ts, mi, ps, lg⟩ := t
  rcases ts with _ | ts
  · simp [parse_token_data]
  rcases a with _ | a
  · simp [parse_token_data]
  rcases sym with _ | sym
  · simp [parse_token_data]
  rcases mi with _ | mi
  · simp [parse_token_data]
  rcases ps with _ | ps
  · simp [parse_token_data]
  rcases lg with _ | lg
  · simp [parse_token_data]
  obtain ⟨f, p, hh, v⟩ := mi
  obtain ⟨l⟩ := ps
  rcases f with _ | f
  · simp [parse_token_data]
  rcases p with _ | p
  · simp [parse_token_data]
  rcases hh with _ | hh
  · simp [parse_token_data]
  rcases v with _ | v
  · simp [parse_token_data]
  rcases l with _ | l
  · simp [parse_token_data]
  simp [parse_token_data]

/-- C8 fails on the code for a file with duplicate elements: loading the
two-element array ["a","a"] gives the one-element set, and saving writes the
one-element array ["a"], which is not a reordering of the original
content. -/
theorem save_after_load_drops_duplicates :
    save_after_load (.parsed (.arr [.str ['a'], .str ['a']])) =
      .ok (.arr [.str ['a']]) ∧
    ¬ List.Perm [Json.str ['a']] [Json.str ['a'], Json.str ['a']] := by
  constructor
  · rfl
  · intro h
    have hl := h.length_eq
    simp at hl

/-- C8 amended: the round trip save(load(F), F) rewrites the original array
with duplicates removed, in some order: the set of elements is preserved
exactly, and for a file whose array has no duplicate elements the rewritten
content is a permutation of (here: equal to) the original array. -/
theorem save_after_load_roundtrip (elems : List PyScalar) :
    save_after_load (.parsed (.arr (elems.map PyScalar.toJson))) =
      .ok (Json.arr (elems.dedup.map PyScalar.toJson)) ∧
    (∀ v : PyScalar, v ∈ elems.dedup ↔ v ∈ elems) ∧
    (elems.Nodup →
      save_after_load (.parsed (.arr (elems.map PyScalar.toJson))) =
        .ok (Json.arr (elems.map PyScalar.toJson))) := by
  refine ⟨?_, fun v => List.mem_dedup, fun h => ?_⟩
  · simp [save_after_load, load_persistence, pySet, save_persistence,
      hashableElems_map_toJson, Except.map]
  · simp [save_after_load, load_persistence, pySet, save_persistence,
      hashableElems_map_toJson, Except.map, List.dedup_eq_self.mpr h]

/-- Witness for save_after_load_roundtrip on the duplicate-free array
["a","b"]. -/
theorem save_after_load_roundtrip_witness :
    save_after_load (.parsed (.arr
        ([PyScalar.str ['a'], PyScalar.str ['b']].map PyScalar.toJson))) =
      .ok (Json.arr
        ([PyScalar.str ['a'], PyScalar.str ['b']].map PyScalar.toJson)) :=
  (save_after_load_roundtrip [PyScalar.str ['a'], PyScalar.str ['b']]).2.2
    (by decide)

/-- C9 fails on the code in its unboundedness part: the encoded upper bound
of the holders and volume ranges is the finite literal 1e+308, so a value
beyond it — 10^309 here — lies in the claimed range [400, +∞) (respectively
[80000, +∞)) yet outside the encoded one. -/
theorem holders_volume_ranges_not_unbounded :
    Config.PARAMS_filter.holders.hi = Config.FLOAT_1E308 ∧
    Config.PARAMS_filter.volume.hi = Config.FLOAT_1E308 ∧
    (400 : ℚ) ≤ 10 ^ 309 ∧
    ¬ inNumRange Config.PARAMS_filter.holders (10 ^ 309) ∧
    (80000 : ℚ) ≤ 10 ^ 309 ∧
    ¬ inNumRange Config.PARAMS_filter.volume (10 ^ 309) := by
  refine ⟨rfl, rfl, by norm_num, ?_, by norm_num, ?_⟩ <;>
  · unfold inNumRange Config.PARAMS_filter Config.FLOAT_1E308
    norm_num

/-- C9 amended: the encoded filter constrains liquidity to [50000, 1000000],
market cap to [200000, 1000000], holders to [400, 1e308] and volume to
[80000, 1e308]: the holders and volume upper bounds are a finite sentinel,
effectively but not literally unbounded. -/
theorem params_filter_ranges (x : ℚ) :
    (inNumRange Config.PARAMS_filter.liquidity x ↔
      50000 ≤ x ∧ x ≤ 1000000) ∧
    (inNumRange Config.PARAMS_filter.mkt_cap x ↔
      200000 ≤ x ∧ x ≤ 1000000) ∧
    (inNumRange Config.PARAMS_filter.holders x ↔
      400 ≤ x ∧ x ≤ 10 ^ 308) ∧
    (inNumRange Config.PARAMS_filter.volume x ↔
      80000 ≤ x ∧ x ≤ 10 ^ 308) :=
  ⟨Iff.rfl, Iff.rfl, Iff.rfl, Iff.rfl⟩
